import Mathlib

/-!
Shallow embedding of the kucoin-ws client (src/src/index.ts): the per-connection
class (subscribe/unsubscribe ticker and candle feeds, connect with token
acquisition, close, keepalive ping, reconnection replay) and the multi-connection
router that shards subscriptions across connections with capacity 98.

Modelling conventions:
- JavaScript exceptions are `Except (KcError × ClientState)`: the error carries
  the state as of the throw, so atomicity properties are statable.
- The transport handle `this.ws` is `Option Bool`: `none` = `undefined`,
  `some b` = a socket whose `readyState` is truthy iff `b` (the code only ever
  tests `!this.ws.readyState` and `!this.ws`).
- `Date.now()` is threaded as a `now : Nat` argument; a queued command is
  modelled by the frame its thunk serializes.
- Awaited externals (the token endpoint response, the socket open + welcome
  handshake) are arguments to `connect`.
-/

namespace KucoinWs

/-- JS `s.replace(p, r)` with one-character arguments: replaces only the
first occurrence. -/
def replaceFirstAux (p r : Char) : List Char → List Char
  | [] => []
  | c :: cs => if c = p then r :: cs else c :: replaceFirstAux p r cs

def jsReplaceFirst (s : String) (p r : Char) : String :=
  ⟨replaceFirstAux p r s.data⟩

/-- JS falsiness of an optional string (`undefined`, `null` and `""` are falsy). -/
def jsFalsyOptStr : Option String → Bool
  | none => true
  | some s => s.isEmpty

/-- JS `s.split(sep)` for a one-character separator, by structural recursion
(`acc` is the current field, reversed). -/
def splitOnCharAux (sep : Char) : List Char → List Char → List (List Char)
  | [], acc => [acc.reverse]
  | c :: cs, acc =>
    if c = sep then acc.reverse :: splitOnCharAux sep cs []
    else splitOnCharAux sep cs (c :: acc)

/-- JS `s.split('-')` and friends. -/
def jsSplitChar (s : String) (sep : Char) : List String :=
  (splitOnCharAux sep s.data []).map (fun l => ⟨l⟩)

/-- An outbound wire frame as serialized by the code; absent JSON fields are
`none`. -/
structure Frame where
  id : Nat
  type : String
  topic : Option String := none
  privateChannel : Option Bool := none
  response : Option Bool := none
deriving Repr, DecidableEq

/-- Notifications emitted through the event bus. -/
inductive KcEvent where
  | subscriptionsEv (subs : List String)
  | socketNotReady (msg : String)
  | reconnectEv (count : Nat)
  | errorEv
deriving Repr, DecidableEq

/-- Thrown errors. `notConnected`, `invalidInterval`, `activeSubscriptions` and
`tokenAcquisition` are the code's own `throw new Error/TypeError` sites;
`typeError` is an implicit JS TypeError from dereferencing `undefined`;
`upstream` is a rejection of the awaited token request itself, rethrown. -/
inductive KcError where
  | notConnected
  | invalidInterval
  | activeSubscriptions (n : Nat)
  | tokenAcquisition
  | typeError
  | upstream
deriving Repr, DecidableEq

/-- The mutable fields of the connection class, plus observation logs:
`queued` records frames pushed to the queue processor, `sent` frames written
directly via `send`, `events` emissions. -/
structure ClientState where
  socketOpen : Bool := false
  socketConnecting : Bool := false
  askingClose : Bool := false
  connectId : String := ""
  pingIntervalMs : Nat := 0
  pingActive : Bool := false
  wsPath : String := ""
  ws : Option Bool := none
  wsCloseCalled : Bool := false
  subscriptions : List String := []
  candleCache : List String := []
  queued : List Frame := []
  sent : List Frame := []
  events : List KcEvent := []
deriving Repr, DecidableEq

abbrev KcResult := Except (KcError × ClientState) ClientState

def initialClient : ClientState := {}

def tickerKey (symbol : String) : String := "ticker-" ++ symbol

def candleKey (symbol interval : String) : String :=
  "candle-" ++ symbol ++ "-" ++ interval

/-- Modelled from the spec: the interval table `mapCandleInterval` lives in
`src/const.ts`, which is not under `src/`; the spec fixes "a fixed enumerated
set mapping a human interval label to its wire-format code" containing
`1m,5m,15m,1h,...` (the KuCoin label set). -/
def mapCandleInterval (label : String) : Option String :=
  [("1m", "1min"), ("3m", "3min"), ("5m", "5min"), ("15m", "15min"),
   ("30m", "30min"), ("1h", "1hour"), ("2h", "2hour"), ("4h", "4hour"),
   ("6h", "6hour"), ("8h", "8hour"), ("12h", "12hour"),
   ("1d", "1day"), ("1w", "1week")].lookup label

def tickerTopic (symbol : String) : String :=
  "/market/ticker:" ++ jsReplaceFirst symbol '/' '-'

def candleTopic (symbol code : String) : String :=
  "/market/candles:" ++ jsReplaceFirst symbol '/' '-' ++ "_" ++ code

def tickerSubscribeFrame (symbol : String) (now : Nat) : Frame :=
  { id := now, type := "subscribe", topic := some (tickerTopic symbol),
    privateChannel := some false, response := some true }

def tickerUnsubscribeFrame (symbol : String) (now : Nat) : Frame :=
  { id := now, type := "unsubscribe", topic := some (tickerTopic symbol),
    privateChannel := some false, response := some true }

def candleSubscribeFrame (symbol code : String) (now : Nat) : Frame :=
  { id := now, type := "subscribe", topic := some (candleTopic symbol code),
    privateChannel := some false, response := some true }

def candleUnsubscribeFrame (symbol code : String) (now : Nat) : Frame :=
  { id := now, type := "unsubscribe", topic := some (candleTopic symbol code),
    privateChannel := some false, response := some true }

/-- `sendPing`'s frame: only `id` and `type`. -/
def pingFrame (now : Nat) : Frame := { id := now, type := "ping" }

/-- `subscribeTicker(symbol)`. -/
def subscribeTicker (s : ClientState) (symbol : String) (now : Nat) : KcResult :=
  if !s.socketOpen then .error (.notConnected, s)
  else
    let key := tickerKey symbol
    if s.subscriptions.contains key then .ok s
    else
      let subs := s.subscriptions ++ [key]
      let s := { s with subscriptions := subs,
                        events := s.events ++ [KcEvent.subscriptionsEv subs] }
      match s.ws with
      | none => .error (.typeError, s)
      | some ready =>
        if !ready then
          .ok { s with events := s.events ++
                  [KcEvent.socketNotReady ("socket not ready to subscribe ticker for: " ++ symbol)] }
        else
          .ok { s with queued := s.queued ++ [tickerSubscribeFrame symbol now] }

/-- `unsubscribeTicker(symbol)`: note the code has no readyState deferral here;
the frame is queued, the set is filtered, the notification emitted. -/
def unsubscribeTicker (s : ClientState) (symbol : String) (now : Nat) : KcResult :=
  if !s.socketOpen then .error (.notConnected, s)
  else
    let key := tickerKey symbol
    if !s.subscriptions.contains key then .ok s
    else
      let s := { s with queued := s.queued ++ [tickerUnsubscribeFrame symbol now] }
      let subs := s.subscriptions.filter (fun k => k != key)
      .ok { s with subscriptions := subs,
                   events := s.events ++ [KcEvent.subscriptionsEv subs] }

/-- `subscribeCandle(symbol, interval)`. -/
def subscribeCandle (s : ClientState) (symbol interval : String) (now : Nat) : KcResult :=
  if !s.socketOpen then .error (.notConnected, s)
  else
    let formatInterval := mapCandleInterval interval
    if jsFalsyOptStr formatInterval then .error (.invalidInterval, s)
    else
      let code := formatInterval.getD ""
      let key := candleKey symbol interval
      if s.subscriptions.contains key then .ok s
      else
        let subs := s.subscriptions ++ [key]
        let s := { s with subscriptions := subs,
                          events := s.events ++ [KcEvent.subscriptionsEv subs] }
        match s.ws with
        | none => .error (.typeError, s)
        | some ready =>
          if !ready then
            .ok { s with events := s.events ++
                    [KcEvent.socketNotReady ("socket not ready to subscribe candle for: "
                      ++ symbol ++ " " ++ interval)] }
          else
            .ok { s with queued := s.queued ++ [candleSubscribeFrame symbol code now] }

/-- `unsubscribeCandle(symbol, interval)`: also drops the event handler's
candle de-duplication cache entry for the key. -/
def unsubscribeCandle (s : ClientState) (symbol interval : String) (now : Nat) : KcResult :=
  if !s.socketOpen then .error (.notConnected, s)
  else
    let formatInterval := mapCandleInterval interval
    if jsFalsyOptStr formatInterval then .error (.invalidInterval, s)
    else
      let code := formatInterval.getD ""
      let key := candleKey symbol interval
      if !s.subscriptions.contains key then .ok s
      else
        let s := { s with queued := s.queued ++ [candleUnsubscribeFrame symbol code now] }
        let subs := s.subscriptions.filter (fun k => k != key)
        .ok { s with subscriptions := subs,
                     candleCache := s.candleCache.filter (fun k => k != key),
                     events := s.events ++ [KcEvent.subscriptionsEv subs] }

/-- `closeConnection()`: `if (this.subscriptions.length) throw`; otherwise set
`askingClose` and call `this.ws.close()` — a TypeError if `ws` is `undefined`. -/
def closeConnection (s : ClientState) : KcResult :=
  if s.subscriptions.length ≠ 0 then
    .error (.activeSubscriptions s.subscriptions.length, s)
  else
    let s := { s with askingClose := true }
    match s.ws with
    | none => .error (.typeError, s)
    | some _ => .ok { s with wsCloseCalled := true }

/-- `sendPing()`: `requireSocketToBeOpen` then `send` (which silently returns
when `ws` is absent). -/
def sendPing (s : ClientState) (now : Nat) : KcResult :=
  if !s.socketOpen then .error (.notConnected, s)
  else
    match s.ws with
    | none => .ok s
    | some _ => .ok { s with sent := s.sent ++ [pingFrame now] }

def isSocketOpen (s : ClientState) : Bool := s.socketOpen
def isSocketConnecting (s : ClientState) : Bool := s.socketConnecting
def getSubscriptionNumber (s : ClientState) : Nat := s.subscriptions.length

/-- The replay loop body of `restartPreviousSubscriptions`: each stored key is
split on `'-'` and destructured as `[type, symbol, timeFrame]` (missing parts
are `undefined`; they only ever flow into the interval lookup, where any
unmapped string behaves like `undefined`). The two ifs on `type` re-issue the
subscribe; an exception propagates out of the loop. -/
def replayList (s : ClientState) (subs : List String) (now : Nat) : KcResult :=
  match subs with
  | [] => .ok s
  | sub :: rest =>
    let parts := jsSplitChar sub '-'
    let ty := parts.getD 0 ""
    let symbol := parts.getD 1 "undefined"
    let timeFrame := parts.getD 2 "undefined"
    let step : KcResult :=
      if ty = "ticker" then subscribeTicker s symbol now
      else if ty = "candle" then subscribeCandle s symbol timeFrame now
      else .ok s
    match step with
    | .ok s1 => replayList s1 rest now
    | .error e => .error e

/-- `restartPreviousSubscriptions()`: no-op unless `socketOpen`; when the
transport's readyState is falsy it emits `socket-not-ready` (the `setTimeout`
retry is real time and not modelled); otherwise it snapshots the subscriptions,
clears them in place, and replays each entry. -/
def restartPreviousSubscriptions (s : ClientState) (now : Nat) : KcResult :=
  if !s.socketOpen then .ok s
  else
    match s.ws with
    | none => .error (.typeError, s)
    | some ready =>
      if !ready then
        .ok { s with events := s.events ++
                [KcEvent.socketNotReady "retry later to restart previous subscriptions"] }
      else
        replayList { s with subscriptions := [] } s.subscriptions now

/-- The token endpoint's JSON contract (`PublicToken` model): `data` and
`data.token` may be absent/falsy; `instanceServers[0]` provides the endpoint
and ping interval. -/
structure InstanceServer where
  endpoint : String
  pingInterval : Nat
deriving Repr, DecidableEq

structure PublicTokenData where
  token : Option String
  instanceServers : List InstanceServer
deriving Repr, DecidableEq

structure PublicToken where
  data : Option PublicTokenData
deriving Repr, DecidableEq

/-- `connect()`. `resp` is the awaited token request: `.error` is a rejection
of the request itself (rethrown by the `await`), `.ok` a decoded body.
`freshId` stands for the 24 random bytes in hex; `readyAfterOpen` is the
transport's readyState truthiness once the open + welcome handshake (both
awaited) have completed. -/
def connect (s : ClientState) (resp : Except Unit PublicToken) (freshId : String)
    (readyAfterOpen : Bool) (now : Nat) : KcResult :=
  let s := { s with socketConnecting := true }
  match resp with
  | .error _ => .error (.upstream, s)
  | .ok response =>
    match response.data with
    | none => .error (.tokenAcquisition, { s with socketConnecting := false })
    | some d =>
      if jsFalsyOptStr d.token then
        .error (.tokenAcquisition, { s with socketConnecting := false })
      else
        match d.instanceServers.head? with
        | none => .error (.typeError, s)
        | some srv =>
          let s := { s with askingClose := false, candleCache := [],
                            connectId := freshId,
                            pingIntervalMs := srv.pingInterval,
                            wsPath := srv.endpoint ++ "?token=" ++ d.token.getD ""
                              ++ "&connectId=" ++ freshId }
          let s := if s.socketOpen then s
                   else { s with ws := some readyAfterOpen, socketOpen := true,
                                 socketConnecting := false, pingActive := true }
          if s.subscriptions.length ≠ 0 then restartPreviousSubscriptions s now
          else .ok s

/-- The transport `close` handler: end the queue, clear `socketOpen`, stop the
ping timer, drop the transport handle. (When `askingClose` is false the code
then schedules `reconnect`; see `reconnect`.) -/
def onClose (s : ClientState) : ClientState :=
  { s with queued := [], socketOpen := false, pingActive := false, ws := none }

/-- `reconnect()`: after the retry delay, emit the `reconnect` notification and
call `connect()` again. -/
def reconnect (s : ClientState) (resp : Except Unit PublicToken) (freshId : String)
    (readyAfterOpen : Bool) (now : Nat) : KcResult :=
  connect { s with events := s.events ++ [KcEvent.reconnectEv s.subscriptions.length] }
    resp freshId readyAfterOpen now

/-! ### The Router (`KuCoinWs` over a list of `Client`s) -/

/-- `maxSubscriptions` of the router. -/
def maxSubscriptions : Nat := 98

/-- Modelled from the spec: the `Client` class instantiated by the router
(`src/client.ts`) is not under `src/`; its methods are the connection code
above, and per the spec the router "create[s] and connect[s] a brand-new
Connection" before delegating, so a freshly created client is modelled with
its `connect()` resolved: Open, transport present and ready. -/
def newConnectedClient : ClientState :=
  { socketOpen := true, socketConnecting := false, ws := some true }

structure RouterState where
  clientList : List ClientState := []
deriving Repr, DecidableEq

def emptyRouter : RouterState := {}

/-- `clientList.some(c => c.getSubscriptions().includes(key))`. -/
def routerHasKey (r : RouterState) (key : String) : Bool :=
  r.clientList.any (fun c => c.subscriptions.contains key)

/-- `getLastClient()`: reuse the last client unless it is absent or at
capacity, in which case a new connected client is appended (and becomes the
last). -/
def ensureLastClient (r : RouterState) : RouterState :=
  match r.clientList.getLast? with
  | none => ⟨r.clientList ++ [newConnectedClient]⟩
  | some last =>
    if maxSubscriptions ≤ last.subscriptions.length then
      ⟨r.clientList ++ [newConnectedClient]⟩
    else r

/-- Router `subscribeTicker`: global idempotency check, then delegate to
`getLastClient()`. -/
def routerSubscribeTicker (r : RouterState) (symbol : String) (now : Nat) :
    Except (KcError × RouterState) RouterState :=
  if routerHasKey r (tickerKey symbol) then .ok r
  else
    let r := ensureLastClient r
    match r.clientList.getLast? with
    | none => .error (.typeError, r)
    | some tgt =>
      match subscribeTicker tgt symbol now with
      | .ok c1 => .ok ⟨r.clientList.dropLast ++ [c1]⟩
      | .error (e, c1) => .error (e, ⟨r.clientList.dropLast ++ [c1]⟩)

/-- Router `subscribeTickers`: `symbols.forEach(subscribeTicker)`; a thrown
error propagates out of the loop. -/
def routerSubscribeTickers (r : RouterState) (syms : List String) (now : Nat) :
    Except (KcError × RouterState) RouterState :=
  match syms with
  | [] => .ok r
  | sym :: rest =>
    match routerSubscribeTicker r sym now with
    | .ok r1 => routerSubscribeTickers r1 rest now
    | .error e => .error e

/-- Router `getSubscriptionNumber()`: sum over clients. -/
def routerSubscriptionNumber (r : RouterState) : Nat :=
  r.clientList.foldl (fun acc c => acc + c.subscriptions.length) 0

/-- All keys held across the router's clients, in client order. -/
def allKeys (r : RouterState) : List String :=
  (r.clientList.map (fun c => c.subscriptions)).flatten

/-- Per-client subscription counts. -/
def counts (r : RouterState) : List Nat :=
  r.clientList.map (fun c => c.subscriptions.length)

/-- The count profile after `n` fresh subscriptions through an initially empty
router: full clients of 98, then the remainder. -/
def countsOf (n : Nat) : List Nat :=
  List.replicate (n / maxSubscriptions) maxSubscriptions ++
    (if n % maxSubscriptions = 0 then [] else [n % maxSubscriptions])

/-! ### Concrete fixtures -/

/-- A well-formed token endpoint response. -/
def goodToken : PublicToken := ⟨some ⟨some "tok", [⟨"wss://x", 50000⟩]⟩⟩

/-- The state after one successful `connect()` from scratch: Open, transport
present and ready, no subscriptions. -/
def connectedClient : ClientState :=
  (connect initialClient (.ok goodToken) "cid" true 0).toOption.getD initialClient

/-- Does a call throw the `requireSocketToBeOpen` error? -/
def throwsNotConnected : KcResult → Bool
  | .error (.notConnected, _) => true
  | _ => false

/-- The token endpoint responded but without a usable token
(`!response.data || !response.data.token`). -/
def tokenMissing (pt : PublicToken) : Prop :=
  pt.data = none ∨ ∃ d, pt.data = some d ∧ jsFalsyOptStr d.token = true

/-- Invariant maintained by fresh ticker subscriptions through the router:
every client is Open with a ready transport, the clients' keys concatenate to
`keys`, and the per-client counts follow the capacity profile. -/
def RouterInv (r : RouterState) (keys : List String) : Prop :=
  (∀ c ∈ r.clientList, c.socketOpen = true ∧ c.ws = some true) ∧
  allKeys r = keys ∧
  counts r = countsOf keys.length

/-- 200 pairwise distinct ticker symbols. -/
def sym200 : List String :=
  (List.range 200).map (fun i => String.mk (List.replicate i 'S'))

end KucoinWs

namespace KucoinWs

/-! ### Shared lemmas -/

/-- A successful fresh ticker subscribe on an Open, ready client: one new key,
one notification, one queued frame, nothing else touched. -/
theorem subscribeTicker_fresh (s : ClientState) (symbol : String) (now : Nat)
    (hopen : s.socketOpen = true) (hready : s.ws = some true)
    (hfresh : tickerKey symbol ∉ s.subscriptions) :
    subscribeTicker s symbol now
      = .ok { s with
              subscriptions := s.subscriptions ++ [tickerKey symbol],
              events := s.events
                ++ [KcEvent.subscriptionsEv (s.subscriptions ++ [tickerKey symbol])],
              queued := s.queued ++ [tickerSubscribeFrame symbol now] } := by
  unfold subscribeTicker
  rw [hopen]
  rw [if_neg (by decide)]
  rw [if_neg (by simpa using hfresh), hready]
  rfl

/-! ### Claims -/

/-- C10: calling `closeConnection()` with an empty Subscription Set but no
transport handle (`connect()` never called, or the handle cleared by the close
event) dereferences `undefined` — a TypeError, not any error of the documented
taxonomy — and never reaches `this.ws.close()`; `askingClose` has however
already been set. -/
theorem close_without_transport_type_error :
    initialClient.subscriptions = [] ∧ initialClient.ws = none ∧
    closeConnection initialClient
      = .error (.typeError, { initialClient with askingClose := true }) ∧
    (onClose connectedClient).ws = none ∧
    closeConnection (onClose connectedClient)
      = .error (.typeError, { onClose connectedClient with askingClose := true }) ∧
    ({ initialClient with askingClose := true } : ClientState).wsCloseCalled = false ∧
    KcError.typeError ≠ KcError.notConnected ∧
    KcError.typeError ≠ KcError.invalidInterval ∧
    KcError.typeError ≠ KcError.tokenAcquisition ∧
    (∀ n, KcError.typeError ≠ KcError.activeSubscriptions n) := by
  refine ⟨rfl, rfl, rfl, rfl, rfl, rfl, by decide, by decide, by decide, ?_⟩
  intro n h
  cases h

/-- C9 (counterexample): the keepalive ping frame carries only `id` and
`type` — not the `privateChannel: false, response: true` pair the claim says
every outbound frame includes — and two subscribe commands serialized in the
same `Date.now()` millisecond share an id. -/
theorem ping_frame_lacks_pair :
    (pingFrame 0).privateChannel = none ∧ (pingFrame 0).response = none ∧
    (tickerSubscribeFrame "BTC-USDT" 0).privateChannel = some false ∧
    (tickerSubscribeFrame "A" 5).id = (tickerSubscribeFrame "B" 5).id ∧
    tickerSubscribeFrame "A" 5 ≠ tickerSubscribeFrame "B" 5 := by
  refine ⟨rfl, rfl, rfl, rfl, by decide⟩

/-- C9 (amended): subscribe and unsubscribe frames (ticker and candle) carry
the timestamp id and the `privateChannel: false, response: true` pair; the
ping frame carries only the timestamp id and `type: "ping"`; ids are
`Date.now()` values, so frames of distinct commands share an id whenever they
are serialized in the same millisecond. -/
theorem frame_shapes (symbol code : String) (now : Nat) :
    ((tickerSubscribeFrame symbol now).id = now ∧
     (tickerSubscribeFrame symbol now).privateChannel = some false ∧
     (tickerSubscribeFrame symbol now).response = some true) ∧
    ((tickerUnsubscribeFrame symbol now).id = now ∧
     (tickerUnsubscribeFrame symbol now).privateChannel = some false ∧
     (tickerUnsubscribeFrame symbol now).response = some true) ∧
    ((candleSubscribeFrame symbol code now).id = now ∧
     (candleSubscribeFrame symbol code now).privateChannel = some false ∧
     (candleSubscribeFrame symbol code now).response = some true) ∧
    ((candleUnsubscribeFrame symbol code now).id = now ∧
     (candleUnsubscribeFrame symbol code now).privateChannel = some false ∧
     (candleUnsubscribeFrame symbol code now).response = some true) ∧
    ((pingFrame now).id = now ∧ (pingFrame now).type = "ping" ∧
     (pingFrame now).privateChannel = none ∧ (pingFrame now).response = none) :=
  ⟨⟨rfl, rfl, rfl⟩, ⟨rfl, rfl, rfl⟩, ⟨rfl, rfl, rfl⟩, ⟨rfl, rfl, rfl⟩,
   ⟨rfl, rfl, rfl, rfl⟩⟩

/-- C8: `closeConnection()` fails with `ActiveSubscriptionsError` whenever the
Subscription Set is non-empty, leaving the whole state (in particular the
transport and `askingClose`) untouched; with an empty set and a transport
present it marks the close caller-requested and closes the transport. -/
theorem closeConnection_spec (s : ClientState) (w : Bool) (hws : s.ws = some w) :
    (s.subscriptions ≠ [] →
      closeConnection s = .error (.activeSubscriptions s.subscriptions.length, s)) ∧
    (s.subscriptions = [] →
      closeConnection s = .ok { s with askingClose := true, wsCloseCalled := true }) := by
  constructor
  · intro hne
    unfold closeConnection
    rw [if_pos (by simpa using hne)]
  · intro he
    unfold closeConnection
    rw [if_neg (by simp [he])]
    simp only [hws]

/-- Witness for `closeConnection_spec`: a connected client holding one
subscription is refused with the set's size, and the plain connected client is
closed. -/
theorem closeConnection_spec_witness :
    (({ connectedClient with subscriptions := ["ticker-BTC-USDT"] } : ClientState).ws
        = some true ∧
      closeConnection { connectedClient with subscriptions := ["ticker-BTC-USDT"] }
        = .error (.activeSubscriptions 1,
            { connectedClient with subscriptions := ["ticker-BTC-USDT"] })) ∧
    (connectedClient.ws = some true ∧
      closeConnection connectedClient
        = .ok { connectedClient with askingClose := true, wsCloseCalled := true }) := by
  constructor
  · exact ⟨rfl,
      (closeConnection_spec { connectedClient with subscriptions := ["ticker-BTC-USDT"] }
        true rfl).1 (by decide)⟩
  · exact ⟨rfl, (closeConnection_spec connectedClient true rfl).2 rfl⟩

/-- C7: with the connection Open, an unsupported interval label makes both
`subscribeCandle` and `unsubscribeCandle` throw `InvalidIntervalError` before
any mutation, enqueue or notification: the carried state is exactly the
pre-call state. -/
theorem invalid_interval_atomic (s : ClientState) (symbol interval : String) (now : Nat)
    (hopen : s.socketOpen = true)
    (hbad : jsFalsyOptStr (mapCandleInterval interval) = true) :
    subscribeCandle s symbol interval now = .error (.invalidInterval, s) ∧
    unsubscribeCandle s symbol interval now = .error (.invalidInterval, s) := by
  refine ⟨?_, ?_⟩
  · unfold subscribeCandle; simp [hopen, hbad]
  · unfold unsubscribeCandle; simp [hopen, hbad]

/-- Witness for `invalid_interval_atomic`: the label `7m` is unsupported and
both calls on the connected client are refused with the state unchanged. -/
theorem invalid_interval_atomic_witness :
    (connectedClient.socketOpen = true ∧
      jsFalsyOptStr (mapCandleInterval "7m") = true) ∧
    subscribeCandle connectedClient "BTC-USDT" "7m" 1
      = .error (.invalidInterval, connectedClient) ∧
    unsubscribeCandle connectedClient "BTC-USDT" "7m" 1
      = .error (.invalidInterval, connectedClient) :=
  ⟨⟨rfl, rfl⟩, invalid_interval_atomic connectedClient "BTC-USDT" "7m" 1 rfl rfl⟩

/-- C1: replay is NOT a round-trip for keys whose symbol contains `'-'`.
Subscribing `BTC-USDT` yields the key `ticker-BTC-USDT`; after a forced
disconnect the scheduled reconnect succeeds, the replay splits the key on
`'-'` into `["ticker","BTC","USDT"]` and re-subscribes only `BTC`, so the
externally-observed Subscription Set ends as `["ticker-BTC"]`, not the
original set. -/
theorem replay_loses_dashed_symbol :
    (subscribeTicker connectedClient "BTC-USDT" 1).map (fun s => s.subscriptions)
      = .ok ["ticker-BTC-USDT"] ∧
    ((do
        let s1 ← subscribeTicker connectedClient "BTC-USDT" 1
        reconnect (onClose s1) (.ok goodToken) "cid2" true 2 : KcResult)).toOption.map
        (fun s => s.subscriptions)
      = some ["ticker-BTC"] ∧
    (["ticker-BTC"] : List String) ≠ ["ticker-BTC-USDT"] :=
  ⟨rfl, by decide, by decide⟩

/-- C2 (counterexample): after one successful `connect()` (the state did reach
Open) and a transport close, a subscribe call does NOT register-and-defer: it
throws the `NotConnectedError`, because `requireSocketToBeOpen` tests the
current `socketOpen` flag, not whether Open was ever reached. -/
theorem subscribe_after_close_throws :
    connectedClient.socketOpen = true ∧
    (onClose connectedClient).socketOpen = false ∧
    subscribeTicker (onClose connectedClient) "BTC-USDT" 1
      = .error (.notConnected, onClose connectedClient) ∧
    unsubscribeTicker (onClose connectedClient) "BTC-USDT" 1
      = .error (.notConnected, onClose connectedClient) :=
  ⟨rfl, rfl, rfl, rfl⟩

/-- C2 (amended): every subscribe/unsubscribe call throws `NotConnectedError`
iff the `socketOpen` flag is currently false — regardless of whether Open was
ever reached; deferral (`socket-not-ready`, key registered, no frame queued)
happens only when `socketOpen` is true but the transport's readyState is
falsy. -/
theorem notConnected_iff_not_open (s : ClientState) (symbol : String) (now : Nat)
    (hopen : s.socketOpen = true) (hnr : s.ws = some false)
    (hfresh : tickerKey symbol ∉ s.subscriptions) :
    (∀ (t : ClientState) (sym : String) (n : Nat),
      throwsNotConnected (subscribeTicker t sym n) = !t.socketOpen) ∧
    (∀ (t : ClientState) (sym : String) (n : Nat),
      throwsNotConnected (unsubscribeTicker t sym n) = !t.socketOpen) ∧
    (∀ (t : ClientState) (sym iv : String) (n : Nat),
      throwsNotConnected (subscribeCandle t sym iv n) = !t.socketOpen) ∧
    (∀ (t : ClientState) (sym iv : String) (n : Nat),
      throwsNotConnected (unsubscribeCandle t sym iv n) = !t.socketOpen) ∧
    subscribeTicker s symbol now
      = .ok { s with
              subscriptions := s.subscriptions ++ [tickerKey symbol],
              events := s.events
                ++ [KcEvent.subscriptionsEv (s.subscriptions ++ [tickerKey symbol]),
                    KcEvent.socketNotReady
                      ("socket not ready to subscribe ticker for: " ++ symbol)] } := by
  refine ⟨?_, ?_, ?_, ?_, ?_⟩
  · intro t sym n
    unfold subscribeTicker
    cases h : t.socketOpen
    · simp [h, throwsNotConnected]
    · rw [if_neg (by decide)]
      dsimp only
      split
      · rfl
      · split
        · rfl
        · split <;> rfl
  · intro t sym n
    unfold unsubscribeTicker
    cases h : t.socketOpen
    · simp [h, throwsNotConnected]
    · rw [if_neg (by decide)]
      dsimp only
      split <;> rfl
  · intro t sym iv n
    unfold subscribeCandle
    cases h : t.socketOpen
    · simp [h, throwsNotConnected]
    · rw [if_neg (by decide)]
      dsimp only
      split
      · rfl
      · split
        · rfl
        · split
          · rfl
          · split <;> rfl
  · intro t sym iv n
    unfold unsubscribeCandle
    cases h : t.socketOpen
    · simp [h, throwsNotConnected]
    · rw [if_neg (by decide)]
      dsimp only
      split
      · rfl
      · split <;> rfl
  · unfold subscribeTicker
    rw [hopen]
    simp only [Bool.not_true, Bool.false_eq_true, if_false]
    rw [if_neg (by simpa using hfresh), hnr]
    simp

/-- Witness for `notConnected_iff_not_open`: an Open client whose transport's
readyState is still falsy registers the key and defers. -/
theorem notConnected_iff_not_open_witness :
    (({ connectedClient with ws := some false } : ClientState).socketOpen = true ∧
     ({ connectedClient with ws := some false } : ClientState).ws = some false ∧
     tickerKey "BTC-USDT"
       ∉ ({ connectedClient with ws := some false } : ClientState).subscriptions) ∧
    subscribeTicker { connectedClient with ws := some false } "BTC-USDT" 1
      = .ok { connectedClient with
              ws := some false,
              subscriptions := ["ticker-BTC-USDT"],
              events := [KcEvent.subscriptionsEv ["ticker-BTC-USDT"],
                KcEvent.socketNotReady
                  "socket not ready to subscribe ticker for: BTC-USDT"] } := by
  refine ⟨⟨rfl, rfl, by decide⟩, ?_⟩
  have h := (notConnected_iff_not_open { connectedClient with ws := some false }
    "BTC-USDT" 1 rfl rfl (by decide)).2.2.2.2
  simpa using h

/-- C4: with the connection Open and the transport ready, the first subscribe
of a fresh feed key — ticker, or candle with a supported interval — appends
exactly one entry and enqueues exactly one subscribe frame; the second
subscribe call with the same symbol (and interval, for candles) returns with
the state bit-for-bit unchanged — no entry, no frame, no notification. -/
theorem subscribe_idempotent (s : ClientState) (symbol interval : String)
    (now now2 : Nat)
    (hopen : s.socketOpen = true) (hready : s.ws = some true)
    (hivalid : jsFalsyOptStr (mapCandleInterval interval) = false)
    (hfresh : tickerKey symbol ∉ s.subscriptions)
    (hcfresh : candleKey symbol interval ∉ s.subscriptions) :
    (∃ s1, subscribeTicker s symbol now = .ok s1 ∧
      s1.subscriptions.count (tickerKey symbol)
        = s.subscriptions.count (tickerKey symbol) + 1 ∧
      s.subscriptions.count (tickerKey symbol) = 0 ∧
      s1.queued = s.queued ++ [tickerSubscribeFrame symbol now] ∧
      s1.events = s.events ++ [KcEvent.subscriptionsEv s1.subscriptions] ∧
      subscribeTicker s1 symbol now2 = .ok s1) ∧
    (∃ s2, subscribeCandle s symbol interval now = .ok s2 ∧
      s2.subscriptions.count (candleKey symbol interval)
        = s.subscriptions.count (candleKey symbol interval) + 1 ∧
      s.subscriptions.count (candleKey symbol interval) = 0 ∧
      s2.queued = s.queued
        ++ [candleSubscribeFrame symbol ((mapCandleInterval interval).getD "") now] ∧
      s2.events = s.events ++ [KcEvent.subscriptionsEv s2.subscriptions] ∧
      subscribeCandle s2 symbol interval now2 = .ok s2) := by
  constructor
  · refine ⟨{ s with
              subscriptions := s.subscriptions ++ [tickerKey symbol],
              events := s.events
                ++ [KcEvent.subscriptionsEv (s.subscriptions ++ [tickerKey symbol])],
              queued := s.queued ++ [tickerSubscribeFrame symbol now] },
            ?_, ?_, ?_, ?_, ?_, ?_⟩
    · exact subscribeTicker_fresh s symbol now hopen hready hfresh
    · simp [List.count_append]
    · exact List.count_eq_zero.mpr hfresh
    · rfl
    · rfl
    · unfold subscribeTicker
      rw [hopen]
      simp only [Bool.not_true, Bool.false_eq_true, if_false]
      rw [if_pos (by simp)]
  · refine ⟨{ s with
              subscriptions := s.subscriptions ++ [candleKey symbol interval],
              events := s.events
                ++ [KcEvent.subscriptionsEv (s.subscriptions ++ [candleKey symbol interval])],
              queued := s.queued
                ++ [candleSubscribeFrame symbol ((mapCandleInterval interval).getD "") now] },
            ?_, ?_, ?_, ?_, ?_, ?_⟩
    · unfold subscribeCandle
      rw [hopen]
      simp only [Bool.not_true, Bool.false_eq_true, if_false]
      rw [hivalid]
      simp only [Bool.false_eq_true, if_false]
      rw [if_neg (by simpa using hcfresh), hready]
      rfl
    · simp [List.count_append]
    · exact List.count_eq_zero.mpr hcfresh
    · rfl
    · rfl
    · unfold subscribeCandle
      rw [hopen]
      simp only [Bool.not_true, Bool.false_eq_true, if_false]
      rw [hivalid]
      simp only [Bool.false_eq_true, if_false]
      rw [if_pos (by simp)]

/-- Witness for `subscribe_idempotent` on the freshly connected client, for
the ticker `BTC-USDT` and the candle `BTC-USDT`/`1m`. -/
theorem subscribe_idempotent_witness :
    (connectedClient.socketOpen = true ∧ connectedClient.ws = some true ∧
     jsFalsyOptStr (mapCandleInterval "1m") = false ∧
     tickerKey "BTC-USDT" ∉ connectedClient.subscriptions ∧
     candleKey "BTC-USDT" "1m" ∉ connectedClient.subscriptions) ∧
    (∃ s1, subscribeTicker connectedClient "BTC-USDT" 1 = .ok s1 ∧
      s1.subscriptions.count (tickerKey "BTC-USDT")
        = connectedClient.subscriptions.count (tickerKey "BTC-USDT") + 1 ∧
      connectedClient.subscriptions.count (tickerKey "BTC-USDT") = 0 ∧
      s1.queued = connectedClient.queued ++ [tickerSubscribeFrame "BTC-USDT" 1] ∧
      s1.events = connectedClient.events ++ [KcEvent.subscriptionsEv s1.subscriptions] ∧
      subscribeTicker s1 "BTC-USDT" 2 = .ok s1) ∧
    (∃ s2, subscribeCandle connectedClient "BTC-USDT" "1m" 1 = .ok s2 ∧
      s2.subscriptions.count (candleKey "BTC-USDT" "1m")
        = connectedClient.subscriptions.count (candleKey "BTC-USDT" "1m") + 1 ∧
      connectedClient.subscriptions.count (candleKey "BTC-USDT" "1m") = 0 ∧
      s2.queued = connectedClient.queued
        ++ [candleSubscribeFrame "BTC-USDT" ((mapCandleInterval "1m").getD "") 1] ∧
      s2.events = connectedClient.events ++ [KcEvent.subscriptionsEv s2.subscriptions] ∧
      subscribeCandle s2 "BTC-USDT" "1m" 2 = .ok s2) :=
  ⟨⟨rfl, rfl, rfl, by decide, by decide⟩,
    subscribe_idempotent connectedClient "BTC-USDT" "1m" 1 2 rfl rfl rfl
      (by decide) (by decide)⟩

/-- C5 (counterexample): `subscribeTicker("BTC/USDT")` followed by
`subscribeTicker("BTC-USDT")` yields TWO Subscription Set entries, because the
feed key is built from the raw symbol; only the wire topic replaces `/` with
`-`. -/
theorem slash_dash_two_entries :
    ((do
        let s1 ← subscribeTicker connectedClient "BTC/USDT" 1
        subscribeTicker s1 "BTC-USDT" 2 : KcResult)).map (fun s => s.subscriptions)
      = .ok ["ticker-BTC/USDT", "ticker-BTC-USDT"] ∧
    (["ticker-BTC/USDT", "ticker-BTC-USDT"] : List String).length = 2 :=
  ⟨rfl, rfl⟩

/-- C5 (amended): the `/`→`-` normalization applies only to the wire topic:
the two calls enqueue frames with the identical topic
`/market/ticker:BTC-USDT`, but their feed keys keep the raw symbol, so they
are distinct subscriptions and together produce two Subscription Set
entries. -/
theorem normalization_topic_only (s : ClientState) (now now2 : Nat)
    (hopen : s.socketOpen = true) (hready : s.ws = some true)
    (h1 : tickerKey "BTC/USDT" ∉ s.subscriptions)
    (h2 : tickerKey "BTC-USDT" ∉ s.subscriptions) :
    tickerSubscribeFrame "BTC/USDT" now = tickerSubscribeFrame "BTC-USDT" now ∧
    tickerKey "BTC/USDT" ≠ tickerKey "BTC-USDT" ∧
    ∃ s1 s2, subscribeTicker s "BTC/USDT" now = .ok s1 ∧
      subscribeTicker s1 "BTC-USDT" now2 = .ok s2 ∧
      s2.subscriptions
        = s.subscriptions ++ [tickerKey "BTC/USDT", tickerKey "BTC-USDT"] := by
  refine ⟨?_, by decide, ?_⟩
  · unfold tickerSubscribeFrame
    rw [show tickerTopic "BTC/USDT" = tickerTopic "BTC-USDT" from by decide]
  · refine ⟨_, _, subscribeTicker_fresh s "BTC/USDT" now hopen hready h1,
      subscribeTicker_fresh _ "BTC-USDT" now2 hopen hready ?_, by simp⟩
    intro hmem
    rcases List.mem_append.mp hmem with hm | hm
    · exact h2 hm
    · simp at hm
      exact absurd hm (by decide)

/-- Witness for `normalization_topic_only` on the freshly connected client. -/
theorem normalization_topic_only_witness :
    (connectedClient.socketOpen = true ∧ connectedClient.ws = some true ∧
     tickerKey "BTC/USDT" ∉ connectedClient.subscriptions ∧
     tickerKey "BTC-USDT" ∉ connectedClient.subscriptions) ∧
    tickerSubscribeFrame "BTC/USDT" 1 = tickerSubscribeFrame "BTC-USDT" 1 ∧
    tickerKey "BTC/USDT" ≠ tickerKey "BTC-USDT" ∧
    ∃ s1 s2, subscribeTicker connectedClient "BTC/USDT" 1 = .ok s1 ∧
      subscribeTicker s1 "BTC-USDT" 2 = .ok s2 ∧
      s2.subscriptions
        = connectedClient.subscriptions
            ++ [tickerKey "BTC/USDT", tickerKey "BTC-USDT"] :=
  ⟨⟨rfl, rfl, by decide, by decide⟩,
    normalization_topic_only connectedClient 1 2 rfl rfl (by decide) (by decide)⟩

/-- C6 (counterexample): when the awaited token request itself rejects
(endpoint unreachable), `connect()` rethrows that rejection — not a
`TokenAcquisitionError` — and `socketConnecting` is left `true`, so
`isSocketConnecting()` is true after the failed call. -/
theorem provider_rejection_keeps_connecting :
    connect initialClient (.error ()) "cid" true 0
      = .error (.upstream, { initialClient with socketConnecting := true }) ∧
    isSocketConnecting { initialClient with socketConnecting := true } = true :=
  ⟨rfl, rfl⟩

/-- C6 (amended): only the missing/falsy-token response path fails with
`TokenAcquisitionError` and resets `socketConnecting` to false (leaving all
other fields unchanged); a rejection of the token request itself propagates
verbatim and leaves `socketConnecting` true. -/
theorem connect_token_failure_modes (s : ClientState) (pt : PublicToken)
    (fid : String) (w : Bool) (now : Nat) (hmiss : tokenMissing pt) :
    connect s (.ok pt) fid w now
      = .error (.tokenAcquisition, { s with socketConnecting := false }) ∧
    connect s (.error ()) fid w now
      = .error (.upstream, { s with socketConnecting := true }) := by
  constructor
  · rcases hmiss with h | ⟨d, hd, ht⟩
    · simp [connect, h]
    · simp [connect, hd, ht]
  · rfl

/-- Witness for `connect_token_failure_modes` with a `data`-less response. -/
theorem connect_token_failure_modes_witness :
    tokenMissing ⟨none⟩ ∧
    (connect initialClient (.ok ⟨none⟩) "cid" true 0
      = .error (.tokenAcquisition, { initialClient with socketConnecting := false }) ∧
     connect initialClient (.error ()) "cid" true 0
      = .error (.upstream, { initialClient with socketConnecting := true })) :=
  ⟨Or.inl rfl, connect_token_failure_modes initialClient ⟨none⟩ "cid" true 0 (Or.inl rfl)⟩

/-! ### C3: router sharding -/

theorem countsOf_zero : countsOf 0 = [] := rfl

theorem countsOf_eq_nil_iff (n : Nat) : countsOf n = [] ↔ n = 0 := by
  unfold countsOf maxSubscriptions
  constructor
  · intro h
    rcases List.append_eq_nil.mp h with ⟨h1, h2⟩
    have hq : n / 98 = 0 := by simpa using congrArg List.length h1
    by_cases hm : n % 98 = 0
    · omega
    · simp [hm] at h2
  · rintro rfl; rfl

theorem countsOf_succ_full (n : Nat) (h : n % 98 = 0) :
    countsOf (n + 1) = countsOf n ++ [1] := by
  unfold countsOf maxSubscriptions
  have h1 : (n + 1) / 98 = n / 98 := by omega
  have h2 : (n + 1) % 98 = 1 := by omega
  rw [h1, h2, h]
  simp

theorem countsOf_succ_rem (n : Nat) (h : n % 98 ≠ 0) :
    countsOf (n + 1) = (countsOf n).dropLast ++ [n % 98 + 1] := by
  unfold countsOf maxSubscriptions
  by_cases h97 : n % 98 = 97
  · have h1 : (n + 1) / 98 = n / 98 + 1 := by omega
    have h2 : (n + 1) % 98 = 0 := by omega
    rw [h1, h2, h97]
    simp [h, List.replicate_succ', List.dropLast_concat]
  · have h1 : (n + 1) / 98 = n / 98 := by omega
    have h2 : (n + 1) % 98 = n % 98 + 1 := by omega
    rw [h1, h2]
    simp [h, List.dropLast_concat]

theorem mem_countsOf_le (n x : Nat) (hx : x ∈ countsOf n) : x ≤ 98 := by
  unfold countsOf maxSubscriptions at hx
  rcases List.mem_append.mp hx with h | h
  · have := List.eq_of_mem_replicate h
    omega
  · by_cases hm : n % 98 = 0
    · simp [hm] at h
    · simp [hm] at h
      have : n % 98 < 98 := Nat.mod_lt _ (by omega)
      omega

theorem countsOf_length (n : Nat) : (countsOf n).length = (n + 97) / 98 := by
  unfold countsOf maxSubscriptions
  by_cases hm : n % 98 = 0 <;> simp [hm] <;> omega

theorem countsOf_getLast_rem (n : Nat) (h : n % 98 ≠ 0) :
    (countsOf n).getLast? = some (n % 98) := by
  unfold countsOf maxSubscriptions
  simp [h, List.getLast?_concat]

theorem countsOf_getLast_full (n : Nat) (h0 : n ≠ 0) (h : n % 98 = 0) :
    (countsOf n).getLast? = some 98 := by
  unfold countsOf maxSubscriptions
  rw [h]
  have hq : n / 98 ≠ 0 := by omega
  rcases Nat.exists_eq_succ_of_ne_zero hq with ⟨k, hk⟩
  rw [hk, List.replicate_succ']
  simp [List.getLast?_concat]

theorem allKeys_concat (init : List ClientState) (c : ClientState) :
    allKeys ⟨init ++ [c]⟩ = allKeys ⟨init⟩ ++ c.subscriptions := by
  simp [allKeys]

theorem counts_concat (init : List ClientState) (c : ClientState) :
    counts ⟨init ++ [c]⟩ = counts ⟨init⟩ ++ [c.subscriptions.length] := by
  simp [counts]

theorem mem_allKeys (r : RouterState) (k : String) :
    k ∈ allKeys r ↔ ∃ c ∈ r.clientList, k ∈ c.subscriptions := by
  unfold allKeys
  rw [List.mem_flatten]
  constructor
  · rintro ⟨l, hl, hk⟩
    obtain ⟨c, hc, rfl⟩ := List.mem_map.mp hl
    exact ⟨c, hc, hk⟩
  · rintro ⟨c, hc, hk⟩
    exact ⟨c.subscriptions, List.mem_map.mpr ⟨c, hc, rfl⟩, hk⟩

theorem routerHasKey_false (r : RouterState) (k : String)
    (h : k ∉ allKeys r) : routerHasKey r k = false := by
  unfold routerHasKey
  rw [List.any_eq_false]
  intro c hc
  simp only [Bool.not_eq_true]
  rw [Bool.eq_false_iff]
  intro hcon
  have hk : k ∈ c.subscriptions := by simpa using hcon
  exact h ((mem_allKeys r k).mpr ⟨c, hc, hk⟩)

/-- `subscribeTicker` on a brand-new connected client. -/
theorem subscribeTicker_new (symbol : String) (now : Nat) :
    subscribeTicker newConnectedClient symbol now
      = .ok { newConnectedClient with
              subscriptions := [tickerKey symbol],
              events := [KcEvent.subscriptionsEv [tickerKey symbol]],
              queued := [tickerSubscribeFrame symbol now] } := rfl

/-- Router subscribe on an empty router: create one client and give it the
key. -/
theorem routerSubscribeTicker_nil (symbol : String) (now : Nat) :
    routerSubscribeTicker ⟨[]⟩ symbol now
      = .ok ⟨[{ newConnectedClient with
                subscriptions := [tickerKey symbol],
                events := [KcEvent.subscriptionsEv [tickerKey symbol]],
                queued := [tickerSubscribeFrame symbol now] }]⟩ := rfl

/-- Router subscribe with a non-full last client: the key goes to it. -/
theorem routerSubscribeTicker_last (init : List ClientState) (last : ClientState)
    (symbol : String) (now : Nat)
    (hopen : last.socketOpen = true) (hready : last.ws = some true)
    (hnotfull : last.subscriptions.length < maxSubscriptions)
    (hfreshAll : ∀ c ∈ init ++ [last], tickerKey symbol ∉ c.subscriptions) :
    routerSubscribeTicker ⟨init ++ [last]⟩ symbol now
      = .ok ⟨init ++ [{ last with
              subscriptions := last.subscriptions ++ [tickerKey symbol],
              events := last.events
                ++ [KcEvent.subscriptionsEv (last.subscriptions ++ [tickerKey symbol])],
              queued := last.queued ++ [tickerSubscribeFrame symbol now] }]⟩ := by
  have hnk : tickerKey symbol ∉ allKeys ⟨init ++ [last]⟩ := by
    intro h
    obtain ⟨c, hc, hkc⟩ := (mem_allKeys _ _).mp h
    exact hfreshAll c hc hkc
  unfold routerSubscribeTicker
  rw [routerHasKey_false _ _ hnk]
  rw [if_neg (by simp)]
  unfold ensureLastClient
  simp only [List.getLast?_concat]
  rw [if_neg (by omega)]
  simp only [List.getLast?_concat,
    subscribeTicker_fresh last symbol now hopen hready (hfreshAll last (by simp)),
    List.dropLast_concat]

/-- Router subscribe with a full last client: a new client is appended and
gets the key. -/
theorem routerSubscribeTicker_full (init : List ClientState) (last : ClientState)
    (symbol : String) (now : Nat)
    (hfull : maxSubscriptions ≤ last.subscriptions.length)
    (hfreshAll : ∀ c ∈ init ++ [last], tickerKey symbol ∉ c.subscriptions) :
    routerSubscribeTicker ⟨init ++ [last]⟩ symbol now
      = .ok ⟨(init ++ [last]) ++ [{ newConnectedClient with
              subscriptions := [tickerKey symbol],
              events := [KcEvent.subscriptionsEv [tickerKey symbol]],
              queued := [tickerSubscribeFrame symbol now] }]⟩ := by
  have hnk : tickerKey symbol ∉ allKeys ⟨init ++ [last]⟩ := by
    intro h
    obtain ⟨c, hc, hkc⟩ := (mem_allKeys _ _).mp h
    exact hfreshAll c hc hkc
  unfold routerSubscribeTicker
  rw [routerHasKey_false _ _ hnk]
  rw [if_neg (by simp)]
  unfold ensureLastClient
  simp only [List.getLast?_concat]
  rw [if_pos hfull]
  simp only [List.getLast?_concat, subscribeTicker_new, List.dropLast_concat]

/-- One fresh router subscribe preserves the sharding invariant and appends
the key. -/
theorem routerSubscribeTicker_step (r : RouterState) (keys : List String)
    (symbol : String) (now : Nat) (hInv : RouterInv r keys)
    (hfresh : tickerKey symbol ∉ keys) :
    ∃ r', routerSubscribeTicker r symbol now = .ok r' ∧
      RouterInv r' (keys ++ [tickerKey symbol]) := by
  obtain ⟨cl⟩ := r
  obtain ⟨hgood, hkeys, hcounts⟩ := hInv
  have hmem : tickerKey symbol ∉ allKeys ⟨cl⟩ := by rw [hkeys]; exact hfresh
  have hfreshAll : ∀ c ∈ cl, tickerKey symbol ∉ c.subscriptions := by
    intro c hc hkc
    exact hmem ((mem_allKeys _ _).mpr ⟨c, hc, hkc⟩)
  rcases List.eq_nil_or_concat cl with rfl | ⟨init, last, rfl⟩
  · have hkeys0 : keys = [] := by rw [← hkeys]; rfl
    subst hkeys0
    refine ⟨_, routerSubscribeTicker_nil symbol now, ?_, ?_, ?_⟩
    · intro c hc
      simp only [List.mem_singleton] at hc
      subst hc
      exact ⟨rfl, rfl⟩
    · simp [allKeys]
    · simp [counts]
      rfl
  · simp only [List.concat_eq_append] at hgood hkeys hcounts hmem hfreshAll ⊢
    rw [counts_concat] at hcounts
    have hlast : (countsOf keys.length).getLast? = some last.subscriptions.length := by
      rw [← hcounts]; exact List.getLast?_concat _
    have hdrop : (countsOf keys.length).dropLast = counts ⟨init⟩ := by
      rw [← hcounts]; exact List.dropLast_concat
    have hn0 : keys.length ≠ 0 := by
      intro h0
      rw [h0, countsOf_zero] at hlast
      simp at hlast
    by_cases hm : keys.length % 98 = 0
    · have hlen : last.subscriptions.length = 98 := by
        rw [countsOf_getLast_full _ hn0 hm] at hlast
        exact (Option.some_injective _ hlast).symm
      refine ⟨_, routerSubscribeTicker_full init last symbol now
        (by rw [hlen]; rfl) hfreshAll, ?_, ?_, ?_⟩
      · intro c hc
        rcases List.mem_append.mp hc with hc | hc
        · exact hgood c hc
        · simp only [List.mem_singleton] at hc
          subst hc
          exact ⟨rfl, rfl⟩
      · rw [allKeys_concat, hkeys]
      · rw [counts_concat, counts_concat, hcounts]
        have h1 : (keys ++ [tickerKey symbol]).length = keys.length + 1 := by simp
        rw [h1, countsOf_succ_full _ hm]
        simp
    · have hlen : last.subscriptions.length = keys.length % 98 := by
        rw [countsOf_getLast_rem _ hm] at hlast
        exact (Option.some_injective _ hlast).symm
      obtain ⟨ho, hw⟩ := hgood last (by simp)
      have hmod : keys.length % 98 < 98 := Nat.mod_lt _ (by omega)
      refine ⟨_, routerSubscribeTicker_last init last symbol now ho hw
        (by rw [hlen]; exact hmod) hfreshAll, ?_, ?_, ?_⟩
      · intro c hc
        rcases List.mem_append.mp hc with hc | hc
        · exact hgood c (List.mem_append.mpr (Or.inl hc))
        · simp only [List.mem_singleton] at hc
          subst hc
          exact hgood last (by simp)
      · rw [allKeys_concat]
        have : allKeys ⟨init⟩ ++ last.subscriptions = keys := by
          rw [← hkeys, allKeys_concat]
        simp only [← this]
        simp [List.append_assoc]
      · rw [counts_concat]
        have h1 : (keys ++ [tickerKey symbol]).length = keys.length + 1 := by simp
        rw [h1, countsOf_succ_rem _ hm, hdrop]
        simp [hlen]

/-- Folding fresh router subscribes over a list of symbols with nodup keys. -/
theorem routerSubscribeTickers_inv (syms : List String) (now : Nat) :
    ∀ (r : RouterState) (keys : List String), RouterInv r keys →
      (keys ++ syms.map tickerKey).Nodup →
      ∃ r', routerSubscribeTickers r syms now = .ok r' ∧
        RouterInv r' (keys ++ syms.map tickerKey) := by
  induction syms with
  | nil =>
    intro r keys hInv _h
    exact ⟨r, rfl, by simpa using hInv⟩
  | cons sym rest ih =>
    intro r keys hInv h
    have hshift : (keys ++ [tickerKey sym]) ++ rest.map tickerKey
        = keys ++ (sym :: rest).map tickerKey := by simp
    have hfresh : tickerKey sym ∉ keys := by
      intro hk
      have hdisj := (List.nodup_append.mp h).2.2
      exact hdisj hk (by simp)
    obtain ⟨r1, hr1, hInv1⟩ := routerSubscribeTicker_step r keys sym now hInv hfresh
    have h2 : ((keys ++ [tickerKey sym]) ++ rest.map tickerKey).Nodup := by
      rw [hshift]; exact h
    obtain ⟨r2, hr2, hInv2⟩ := ih r1 (keys ++ [tickerKey sym]) hInv1 h2
    refine ⟨r2, ?_, hshift ▸ hInv2⟩
    unfold routerSubscribeTickers
    rw [hr1]
    exact hr2

/-- C3: through the router, any number of distinct ticker subscriptions
succeeds; the clients' key lists concatenate (in order, without loss or
duplication) to the requested keys, the per-client counts follow the
capacity-98 profile `countsOf`, the number of clients is `⌈N/98⌉`, and no
client ever exceeds 98 subscriptions. -/
theorem router_sharding_cap (syms : List String) (now : Nat)
    (h : (syms.map tickerKey).Nodup) :
    ∃ r', routerSubscribeTickers emptyRouter syms now = .ok r' ∧
      allKeys r' = syms.map tickerKey ∧
      counts r' = countsOf syms.length ∧
      r'.clientList.length = (syms.length + 97) / 98 ∧
      ∀ c ∈ r'.clientList, c.subscriptions.length ≤ 98 := by
  have hInv0 : RouterInv emptyRouter [] := by
    refine ⟨?_, rfl, rfl⟩
    intro c hc
    simp [emptyRouter] at hc
  obtain ⟨r', hr', hgood, hkeys, hcounts⟩ :=
    routerSubscribeTickers_inv syms now emptyRouter [] hInv0 (by simpa using h)
  simp only [List.nil_append] at hkeys hcounts
  have hlenkeys : (syms.map tickerKey).length = syms.length := by simp
  refine ⟨r', hr', hkeys, by rw [hcounts, hlenkeys], ?_, ?_⟩
  · have : (counts r').length = r'.clientList.length := by simp [counts]
    rw [← this, hcounts, hlenkeys, countsOf_length]
  · intro c hc
    have hmemc : c.subscriptions.length ∈ counts r' :=
      List.mem_map.mpr ⟨c, hc, rfl⟩
    rw [hcounts] at hmemc
    exact mem_countsOf_le _ _ hmemc

/-- The 200 generated symbols have pairwise distinct ticker keys. -/
theorem sym200_keys_nodup : (sym200.map tickerKey).Nodup := by
  unfold sym200
  rw [List.map_map]
  refine (List.nodup_range 200).map ?_
  intro a b hab
  have hd : "ticker-".data ++ List.replicate a 'S'
      = "ticker-".data ++ List.replicate b 'S' := congrArg String.data hab
  have hr := List.append_cancel_left hd
  have hlen := congrArg List.length hr
  simpa using hlen

/-- Witness for `router_sharding_cap`: 200 distinct ticker subscriptions give
3 clients with counts 98, 98, 4. -/
theorem router_sharding_cap_witness :
    (sym200.map tickerKey).Nodup ∧
    ∃ r', routerSubscribeTickers emptyRouter sym200 0 = .ok r' ∧
      counts r' = [98, 98, 4] ∧ r'.clientList.length = 3 := by
  have hnd : (sym200.map tickerKey).Nodup := sym200_keys_nodup
  obtain ⟨r', h1, _hkeys, hcounts, hlen, _hle⟩ := router_sharding_cap sym200 0 hnd
  have hsl : sym200.length = 200 := by simp [sym200]
  refine ⟨hnd, r', h1, ?_, ?_⟩
  · rw [hcounts, hsl]
    rfl
  · rw [hlen, hsl]

end KucoinWs
